import Mathlib

/-!
Verification of the babyagi-2o repository (src/main.py and src/sandbox.py)
against its natural-language specification.

Shallow embedding conventions:
* Python dicts keyed by strings are association lists (`List (String × α)`)
  with insertion-order update semantics (`dictSet` / `dictGet`).
* Python exceptions are `Except String α`: `.error msg` models a raised
  exception whose `str(e)` is `msg`; a `try/except` that catches it is a
  `match` on the `Except` value.
* Tool return values are modelled by their serialized text (the string
  `json.dumps` / `str` produces for them), since the only observations the
  program makes of a tool result are that encoding and its length.
* External collaborators (the litellm completion endpoint, `json.loads`,
  the Daytona sandbox service) are oracle parameters: the theorems quantify
  over every behaviour those collaborators can exhibit.
-/

/-! ## Python dict primitives -/

/-- Lookup in an insertion-ordered string-keyed dict (`d.get(k)` / `d[k]`). -/
def dictGet {α : Type} : List (String × α) → String → Option α
  | [], _ => none
  | (k, v) :: rest, key => if k == key then some v else dictGet rest key

/-- Update in an insertion-ordered string-keyed dict (`d[k] = v`): replaces the
value in place if the key is present, otherwise appends the pair at the end. -/
def dictSet {α : Type} : List (String × α) → String → α → List (String × α)
  | [], key, v => [(key, v)]
  | (k, w) :: rest, key, v =>
      if k == key then (key, v) :: rest else (k, w) :: dictSet rest key v

/-! ## main.py: tool registry, synthesizer, serializer, dispatcher -/

/-- Arguments of one tool invocation: the dictionary `json.loads` produced from
the tool call's arguments string, with values modelled by their text. -/
abbrev Args := List (String × String)

/-- A tool implementation: from arguments either to a result (modelled by its
serialized text) or to a raised exception (`.error` with the exception text). -/
abbrev ToolImpl := Args → Except String String

/-- One entry of the `tools` list of main.py: the descriptor sent to the model.
The JSON-schema wrapper is kept as its data: name, description and the
parameter names, which main.py lists verbatim as the `required` field. -/
structure ToolDescriptor where
  name : String
  description : String
  required : List String
deriving Repr, DecidableEq

/-- The process-wide mutable registry of main.py: the `tools` descriptor list
and the `available_functions` name-to-implementation dict. -/
structure Registry where
  tools : List ToolDescriptor
  available_functions : List (String × ToolImpl)

/-- main.py `register_tool`: drops every descriptor with the same name from
`tools`, binds the implementation in `available_functions`, and appends the
fresh descriptor. -/
def register_tool (reg : Registry) (name : String) (func : ToolImpl)
    (description : String) (parameters : List String) : Registry :=
  { tools := (reg.tools.filter (fun t => t.name != name)) ++
      [{ name := name, description := description, required := parameters }],
    available_functions := dictSet reg.available_functions name func }

/-- The module globals of main.py as `exec(code, globals())` sees them: the
two registry containers (`tools` and `available_functions`) and the
function-valued names of the namespace (the module's own functions together
with anything previously exec-defined), resolvable by `globals()[name]`. -/
structure ModuleGlobals where
  reg : Registry
  bindings : List (String × ToolImpl)

/-- Outcome of `exec(code, globals())` for one submitted source text: the code
runs against the live module globals, so the post-state carries every
mutation it performed, also when it then raises. -/
inductive ExecOutcome where
  | raised : ModuleGlobals → String → ExecOutcome
  | completed : ModuleGlobals → ExecOutcome

/-- The globals as the executed source left them, on either outcome. -/
def execGlobals : ExecOutcome → ModuleGlobals
  | .raised g _ => g
  | .completed g => g

/-- main.py `create_or_update_tool`. `execO` is the semantics of
`exec(code, globals())` for the submitted source text: a map from the current
module globals to an outcome whose post-state keeps whatever mutations the
code made before finishing or raising - the code runs in the same globals
that hold `tools` and `available_functions`, so it can touch the registry
before failing. When exec raises, the exception is caught and the failure
string returned over the mutated globals; otherwise `globals()[name]` is
looked up among the function-valued names (a missing key raises `KeyError`,
whose `str` is the quoted key, likewise caught), and only on success does
`register_tool` run. -/
def create_or_update_tool (execO : ModuleGlobals → ExecOutcome) (g : ModuleGlobals)
    (name : String) (description : String) (parameters : List String) :
    ModuleGlobals × String :=
  match execO g with
  | .raised g2 e =>
      (g2, "Error creating/updating tool \x27" ++ name ++ "\x27: " ++ e)
  | .completed g2 =>
      match dictGet g2.bindings name with
      | none =>
          (g2, "Error creating/updating tool \x27" ++ name ++ "\x27: " ++
            ("\x27" ++ name ++ "\x27"))
      | some func =>
          ({ g2 with reg := register_tool g2.reg name func description parameters },
           "Tool \x27" ++ name ++ "\x27 created/updated successfully.")

/-- main.py `MAX_TOOL_OUTPUT_LENGTH`. -/
def MAX_TOOL_OUTPUT_LENGTH : Nat := 5000

/-- The ANSI escapes `Colors.WARNING` and `Colors.ENDC` of main.py. -/
def WARNING_COLOR : String := "\x1b[93m"

/-- The ANSI reset escape `Colors.ENDC` of main.py. -/
def ENDC_COLOR : String := "\x1b[0m"

/-- The note main.py appends to a truncated tool result. -/
def trunc_note (max_length total : Nat) : String :=
  "\n\n" ++ WARNING_COLOR ++ "(Note: Result was truncated to " ++ toString max_length ++
    " characters out of " ++ toString total ++ " total characters.)" ++ ENDC_COLOR

/-- main.py `serialize_tool_result`, over the encoded text of the value
(`json.dumps(tool_result)`, falling back to `str(tool_result)`): keeps the
encoding when it fits in `max_length` characters, otherwise keeps exactly the
first `max_length` characters and appends the truncation note. -/
def serialize_tool_result (max_length : Nat) (serialized_result : String) : String :=
  if serialized_result.length > max_length then
    serialized_result.take max_length ++ trunc_note max_length serialized_result.length
  else
    serialized_result

/-- main.py `call_tool`: resolves the name in `available_functions`; an absent
name yields the not-found text, an implementation that raises yields the
error-executing text, otherwise the implementation's result is returned.
Totality of this function is the model of "never propagates an exception". -/
def call_tool (available_functions : List (String × ToolImpl))
    (function_name : String) (args : Args) : String :=
  match dictGet available_functions function_name with
  | none => "Tool \x27" ++ function_name ++ "\x27 not found."
  | some func =>
      match func args with
      | .ok result => result
      | .error e => "Error executing \x27" ++ function_name ++ "\x27: " ++ e

/-- Concrete registry used by witnesses: the three tools main.py pre-registers,
with their implementations modelled at the result level. -/
def demo_registry : Registry :=
  { tools :=
      [{ name := "create_or_update_tool",
         description := "Creates or updates a tool with the specified name, code, description, and parameters.",
         required := ["name", "code", "description", "parameters"] },
       { name := "install_package",
         description := "Installs a Python package using pip.",
         required := ["package_name"] },
       { name := "task_completed",
         description := "Marks the current task as completed.",
         required := [] }],
    available_functions :=
      [("create_or_update_tool", fun _ => .ok "Tool created."),
       ("install_package", fun _ => .ok "Package installed."),
       ("task_completed", fun _ => .ok "Task marked as completed.")] }

/-- Module globals for the C3 theorems: the demo registry together with a few
of the function-valued names main.py itself binds (their behaviour is not at
stake here, only their presence in the namespace). -/
def demo_globals : ModuleGlobals :=
  { reg := demo_registry,
    bindings :=
      [("register_tool", fun _ => .ok ""),
       ("install_package", fun _ => .ok "Package installed."),
       ("task_completed", fun _ => .ok "Task marked as completed.")] }

/-- Exec semantics of a submitted source text such as
`tools.clear(); available_functions.clear(); raise Exception("boom")`: run in
the module globals, it empties both registry containers and then raises. -/
def registry_clearing_exec : ModuleGlobals → ExecOutcome :=
  fun g => .raised { g with reg := { tools := [], available_functions := [] } } "boom"

/-- Exec semantics of a source text that does not compile: nothing runs, so
nothing is mutated and the `SyntaxError` is raised over unchanged globals. -/
def syntax_error_exec : ModuleGlobals → ExecOutcome :=
  fun g => .raised g "invalid syntax (<string>, line 1)"

/-- A 5001-character encoding, for the C4 witness. -/
def long_result : String := String.mk (List.replicate 5001 'a')

/-! ## main.py: credential-name detection and the system message -/

/-- The name patterns main.py scans environment-variable names for. -/
def api_key_patterns : List String := ["API_KEY", "ACCESS_TOKEN", "SECRET_KEY", "TOKEN", "APISECRET"]

/-- Python's substring test `pat in hay` for a nonempty pattern: splitting on
the pattern yields more than one piece exactly when the pattern occurs. -/
def py_in (pat hay : String) : Bool := (hay.splitOn pat).length != 1

/-- The process environment, as the insertion-ordered name/value pairs of
`os.environ`. -/
abbrev Environ := List (String × String)

/-- main.py `available_api_keys`: the environment-variable names whose
upper-cased form contains one of the credential patterns. Only the names are
kept; the values are discarded by the comprehension. -/
def available_api_keys (environ : Environ) : List String :=
  (environ.map Prod.fst).filter
    (fun key => api_key_patterns.any (fun pat => py_in pat key.toUpper))

/-- main.py `api_keys_info`: the credential-name block interpolated into the
system prompt. -/
def api_keys_info (environ : Environ) : String :=
  if available_api_keys environ ≠ [] then
    "Available API keys:\n" ++
      String.intercalate "\n" ((available_api_keys environ).map (fun key => "- " ++ key)) ++
      "\n\n"
  else
    "No API keys are available.\n\n"

/-- The content of the system message main.py builds at loop initialisation:
the static operating instructions with `api_keys_info` interpolated. -/
def system_message_content (environ : Environ) : String :=
  "You are an AI assistant designed to iteratively build and execute Python functions using tools provided to you. " ++
  "Your task is to complete the requested task by creating and using tools in a loop until the task is fully done. " ++
  "Do not ask for user input until you find it absolutely necessary. If you need required information that is likely available online, create the required tools to find this information. " ++
  "You have the following tools available to start with:\n\n" ++
  "1. **create_or_update_tool**: This tool allows you to create new functions or update existing ones. " ++
  "You must provide the function name, code, description, and parameters. " ++
  "**All four arguments are required**. The \x27parameters\x27 argument should be a dictionary defining the parameters the function accepts, following JSON schema format.\n" ++
  "Example of \x27parameters\x27: \x7b\n" ++
  "  \"param1\": \x7b\"type\": \"string\", \"description\": \"Description of param1.\"\x7d,\n" ++
  "  \"param2\": \x7b\"type\": \"integer\", \"description\": \"Description of param2.\"\x7d\n" ++
  "\x7d\n" ++
  "2. **install_package**: Installs a Python package using pip. Provide the \x27package_name\x27 as the parameter.\n" ++
  "3. **task_completed**: This tool should be used to signal when you believe the requested task is fully completed.\n\n" ++
  "Here are API keys you have access to: " ++ api_keys_info environ ++
  "If you do not know how to use an API, look up the documentation and find examples.\n\n" ++
  "Your workflow should include:\n" ++
  "- Creating or updating tools with all required arguments.\n" ++
  "- Using \x27install_package\x27 when a required library is missing.\n" ++
  "- Using created tools to progress towards completing the task.\n" ++
  "- When creating or updating tools, provide the complete code as it will be used without any edits.\n" ++
  "- Handling any errors by adjusting your tools or arguments as necessary.\n" ++
  "- **Being token-efficient**: avoid returning excessively long outputs. If a tool returns a large amount of data, consider summarizing it or returning only relevant parts.\n" ++
  "- Prioritize using tools that you have access to via the available API keys.\n" ++
  "- Signaling task completion with \x27task_completed()\x27 when done.\n" ++
  "\nPlease ensure that all function calls include all required parameters, and be mindful of token limits when handling tool outputs."

/-! ## main.py: the agent loop -/

/-- One tool call of an assistant message: the model-issued correlation id, the
requested tool name, and the raw JSON arguments text. -/
structure ToolCall where
  id : String
  name : String
  arguments : String
deriving Repr, DecidableEq

/-- One assistant message: optional text content and the (possibly empty) tool
call list; Python's `None` tool_calls field and an empty list are both falsy,
so both are the empty list here. -/
structure AssistantMessage where
  content : Option String
  tool_calls : List ToolCall
deriving Repr, DecidableEq

/-- One transcript entry. The `tool` constructor carries the fields main.py
appends: the function name, the originating call's `tool_call_id`, and the
serialized result content. -/
inductive Message where
  | system : String → Message
  | user : String → Message
  | assistant : AssistantMessage → Message
  | tool : String → String → String → Message
deriving Repr, DecidableEq

/-- The initial transcript main.py builds: the system message and the user
message carrying the task text. -/
def initial_messages (environ : Environ) (user_input : String) : List Message :=
  [Message.system (system_message_content environ), Message.user user_input]

/-- main.py `max_iterations`. -/
def max_iterations : Nat := 50

/-- The body of the `for tool_call in response_message.tool_calls` loop:
for each call in order, parse its arguments with `json.loads` (the oracle
`jsonLoads`), dispatch it through the stateful tool system `callT` (the
process-global registry together with `call_tool`; tool implementations such
as `create_or_update_tool` mutate that state), serialize the result, and
append the `tool`-role message echoing the call's id. When `json.loads`
raises, the exception aborts the remaining calls but the messages already
appended stay in the transcript; the third component reports the exception to
the surrounding `try`. -/
def process_tool_calls {σ : Type} (jsonLoads : String → Except String Args)
    (callT : σ → String → Args → σ × String) :
    σ → List Message → List ToolCall → σ × List Message × Option String
  | st, msgs, [] => (st, msgs, none)
  | st, msgs, tc :: rest =>
      match jsonLoads tc.arguments with
      | .error e => (st, msgs, some e)
      | .ok args =>
          let r := callT st tc.name args
          process_tool_calls jsonLoads callT r.1
            (msgs ++ [Message.tool tc.name tc.id
              (serialize_tool_result MAX_TOOL_OUTPUT_LENGTH r.2)]) rest

/-- Observable outcome of one loop run: the transcript handed to each
completion request in order, the number of loop-body executions, and whether
the run ended through the `task_completed` sentinel `break`. -/
structure LoopTrace where
  requests : List (List Message)
  iterations : Nat
  completedViaSentinel : Bool
deriving Repr, DecidableEq

/-- The `while iteration < max_iterations` loop of main.py `run_main_loop`,
with `fuel = max_iterations - iteration`. Each pass requests a completion on
the current transcript (recording that request), appends the assistant message
when the request succeeds, processes its tool calls, and breaks when one of
them names `task_completed`; any exception from the request or the processing
is caught and the loop advances. -/
def run_main_loop_aux {σ : Type} (completionO : List Message → Except String AssistantMessage)
    (jsonLoads : String → Except String Args)
    (callT : σ → String → Args → σ × String) :
    Nat → σ → List Message → Nat → List (List Message) → LoopTrace
  | 0, _, _, iters, reqs => ⟨reqs.reverse, iters, false⟩
  | fuel + 1, st, msgs, iters, reqs =>
      match completionO msgs with
      | .error _ =>
          run_main_loop_aux completionO jsonLoads callT fuel st msgs (iters + 1) (msgs :: reqs)
      | .ok rm =>
          let msgs1 := msgs ++ [Message.assistant rm]
          if rm.tool_calls.isEmpty then
            run_main_loop_aux completionO jsonLoads callT fuel st msgs1 (iters + 1) (msgs :: reqs)
          else
            match process_tool_calls jsonLoads callT st msgs1 rm.tool_calls with
            | (st2, msgs2, some _) =>
                run_main_loop_aux completionO jsonLoads callT fuel st2 msgs2 (iters + 1) (msgs :: reqs)
            | (st2, msgs2, none) =>
                if rm.tool_calls.any (fun tc => tc.name == "task_completed") then
                  ⟨(msgs :: reqs).reverse, iters + 1, true⟩
                else
                  run_main_loop_aux completionO jsonLoads callT fuel st2 msgs2 (iters + 1) (msgs :: reqs)

/-- main.py `run_main_loop`: the initial transcript followed by at most 50
iterations. The completion endpoint, `json.loads`, and the stateful tool
system are the oracle parameters. -/
def run_main_loop {σ : Type} (environ : Environ)
    (completionO : List Message → Except String AssistantMessage)
    (jsonLoads : String → Except String Args)
    (callT : σ → String → Args → σ × String) (st0 : σ) (user_input : String) : LoopTrace :=
  run_main_loop_aux completionO jsonLoads callT max_iterations st0
    (initial_messages environ user_input) 0 []

/-! ## The call/result pairing invariant -/

/-- The tool-call correlation ids a transcript entry issues. -/
def msgToolCallIds : Message → List String
  | .assistant rm => rm.tool_calls.map (fun tc => tc.id)
  | _ => []

/-- The correlation id a transcript entry answers, if it is a tool message. -/
def msgToolResultIds : Message → List String
  | .tool _ tool_call_id _ => [tool_call_id]
  | _ => []

/-- All tool-call ids issued in a transcript. -/
def toolCallIds (msgs : List Message) : List String := (msgs.map msgToolCallIds).flatten

/-- All tool-call ids answered by tool-role messages in a transcript. -/
def toolResultIds (msgs : List Message) : List String := (msgs.map msgToolResultIds).flatten

/-- A transcript is paired when every tool-call id issued in it is answered by
some tool-role message in it. -/
def paired (msgs : List Message) : Prop :=
  ∀ i ∈ toolCallIds msgs, i ∈ toolResultIds msgs

/-- Every completion request of a run was issued on a paired transcript. -/
def allPaired (t : LoopTrace) : Prop := ∀ r ∈ t.requests, paired r

instance pairedDecidable (msgs : List Message) : Decidable (paired msgs) := by
  unfold paired
  infer_instance

instance allPairedDecidable (t : LoopTrace) : Decidable (allPaired t) := by
  unfold allPaired
  infer_instance

/-- A completion endpoint that raises a connection error on every request. -/
def failing_completion : List Message → Except String AssistantMessage :=
  fun _ => .error "APIConnectionError: Connection error."

/-- A `json.loads` oracle that accepts only the empty-object text. -/
def strict_json : String → Except String Args :=
  fun s => if s = "\x7b\x7d" then .ok [] else .error "Expecting value: line 1 column 1 (char 0)"

/-- A `json.loads` oracle on which every arguments text parses. -/
def lenient_json : String → Except String Args := fun _ => .ok []

/-- The stateless dispatcher built from the demo registry, for witnesses. -/
def unit_call_tool : Unit → String → Args → Unit × String :=
  fun _ function_name args => ((), call_tool demo_registry.available_functions function_name args)

/-- First response of the C6 counterexample: it names the sentinel, but its
arguments text is not JSON. -/
def sentinel_bad_args_response : AssistantMessage :=
  { content := none,
    tool_calls := [{ id := "call_1", name := "task_completed", arguments := "oops" }] }

/-- Completion endpoint of the C6 counterexample. -/
def sentinel_bad_args_completion : List Message → Except String AssistantMessage :=
  fun _ => .ok sentinel_bad_args_response

/-- Completion endpoint for the C6 witness: its single response carries the
sentinel call with well-formed arguments. -/
def sentinel_ok_response : AssistantMessage :=
  { content := none,
    tool_calls := [{ id := "call_1", name := "task_completed", arguments := "\x7b\x7d" }] }

/-- Completion endpoint of the C6 witness. -/
def sentinel_ok_completion : List Message → Except String AssistantMessage :=
  fun _ => .ok sentinel_ok_response

/-- Completion endpoint of the C8 counterexample: its first response issues a
tool call whose arguments text is not JSON; afterwards it raises. -/
def unpaired_response : AssistantMessage :=
  { content := none,
    tool_calls := [{ id := "call_9", name := "fetch_data", arguments := "not json" }] }

/-- Completion endpoint of the C8 counterexample (see above). -/
def unpaired_completion : List Message → Except String AssistantMessage :=
  fun msgs =>
    if msgs.length == 2 then .ok unpaired_response
    else .error "APIConnectionError: Connection error."

/-- Completion endpoint for the C8 witness: one ordinary tool call, then the
sentinel. -/
def paired_first_response : AssistantMessage :=
  { content := none,
    tool_calls := [{ id := "call_a", name := "install_package", arguments := "\x7b\x7d" }] }

/-- Second response of the C8 witness run: the sentinel. -/
def paired_second_response : AssistantMessage :=
  { content := some "done",
    tool_calls := [{ id := "call_b", name := "task_completed", arguments := "\x7b\x7d" }] }

/-- Completion endpoint of the C8 witness (see above). -/
def paired_completion : List Message → Except String AssistantMessage :=
  fun msgs =>
    if msgs.length == 2 then .ok paired_first_response
    else .ok paired_second_response

/-- An environment with two credential-like names and one plain name. -/
def env_alpha : Environ :=
  [("OPENAI_API_KEY", "sk-alpha"), ("HOME", "/home/alpha"), ("GITHUB_TOKEN", "ghp-one")]

/-- The same names as `env_alpha` with different credential values. -/
def env_beta : Environ :=
  [("OPENAI_API_KEY", "sk-beta"), ("HOME", "/home/beta"), ("GITHUB_TOKEN", "ghp-two")]

/-! ## sandbox.py: the provisioner

The module-level names sandbox.py binds (its imports and its own functions)
are listed explicitly because the provisioning claims hinge on Python name
resolution: evaluating a name absent from this scope raises `NameError`.
The Daytona service and the helper phases are a `SandboxWorld` oracle giving
the outcome of each external call; the theorems quantify over all of them. -/

/-- The names bound at module level in sandbox.py: the `import`/`from` lines
(os, sys, json, traceback, sleep, Daytona, CreateWorkspaceParams,
DaytonaConfig, load_dotenv) followed by the functions the module defines. -/
def sandbox_module_names : List String :=
  ["os", "sys", "json", "traceback", "sleep",
   "Daytona", "CreateWorkspaceParams", "DaytonaConfig", "load_dotenv",
   "comprehensive_error_logging", "clone_repository_with_fallbacks",
   "install_pip", "setup_virtualenv", "install_dependencies",
   "run_babyagi", "setup_environment", "setup_babyagi_workspace", "main"]

/-- Python name resolution in sandbox.py's module scope. -/
def nameDefined (n : String) : Bool := sandbox_module_names.contains n

/-- A remote workspace handle returned by the Daytona service. -/
structure Workspace where
  handle : Nat
deriving Repr, DecidableEq

/-- Oracle for every external call sandbox.py makes. Each field gives the
outcome the corresponding call would have: `.error` models a raised
exception. `createExplicit` is what `daytona_client.create(params=...)` would
return for the explicit-parameters strategy; `createDefault` and
`attachConfigured` are the outcomes the spec's fallback strategies (default
creation; attaching to a configured workspace id) would have — sandbox.py
contains no call sites for them. The phase helpers are abstracted at their
call boundary with the return conventions they have in sandbox.py:
`clone_repository_with_fallbacks` returns the workspace directory or raises;
`setup_environment`, `install_pip` and `install_dependencies` catch their own
exceptions and return a success flag; `setup_virtualenv` returns the venv
path or `None`; `run_babyagi` returns the captured output or `None`. -/
structure SandboxWorld where
  daytonaConfig : Except String Unit
  daytonaClient : Except String Unit
  createExplicit : Except String (Option Workspace)
  createDefault : Except String (Option Workspace)
  attachConfigured : Except String (Option Workspace)
  cloneRepo : Workspace → Except String String
  setupEnvOk : Workspace → String → Bool
  installPipOk : Workspace → Bool
  setupVenv : Workspace → Option String
  installDepsOk : Workspace → Bool
  runOutput : Workspace → String → Option String

/-- Observable outcome of one `setup_babyagi_workspace` call: which creation
strategies were reached, the workspace handle if one was ever created, and
the function's return value — `some` models the success dictionary
`{workspace, result, path}`, `none` models `return None`. -/
structure SetupResult where
  strategiesAttempted : List Nat
  created : Option Workspace
  result : Option (Workspace × Option String × String)
deriving Repr, DecidableEq

/-- The phases of sandbox.py `setup_babyagi_workspace` after a workspace
exists: upload the files, write the `.env`, install pip, create the venv,
install dependencies, run the agent; any failure raises into the function's
handler, which returns `None`. A run failure (`run_babyagi` returning `None`)
does not raise: the success record is returned with a `None` output. -/
def setup_after_create (world : SandboxWorld) (ws : Workspace)
    (user_input : String) : Option (Workspace × Option String × String) :=
  match world.cloneRepo ws with
  | .error _ => none
  | .ok workspace_dir =>
      if !world.setupEnvOk ws user_input then none
      else if !world.installPipOk ws then none
      else
        match world.setupVenv ws with
        | none => none
        | some _venv_path =>
            if !world.installDepsOk ws then none
            else some (ws, world.runOutput ws user_input, workspace_dir)

/-- sandbox.py `setup_babyagi_workspace`. Building the Daytona config and
client may raise. The strategy-1 create call builds its parameters with
`id=f"babyagi-{uuid.uuid4().hex[:8]}"`, which first resolves the module-level
name `uuid`; when that name is unbound the f-string raises `NameError` before
`daytona_client.create` is invoked, and the function's `except` handler logs
and returns `None`. No further creation strategy exists in the module. -/
def setup_babyagi_workspace (world : SandboxWorld) (user_input : String) : SetupResult :=
  match world.daytonaConfig with
  | .error _ => ⟨[], none, none⟩
  | .ok _ =>
      match world.daytonaClient with
      | .error _ => ⟨[], none, none⟩
      | .ok _ =>
          if nameDefined "uuid" then
            match world.createExplicit with
            | .error _ => ⟨[1], none, none⟩
            | .ok none => ⟨[1], none, none⟩
            | .ok (some ws) => ⟨[1], some ws, setup_after_create world ws user_input⟩
          else
            ⟨[1], none, none⟩

/-- Observable outcome of one run of sandbox.py `main`: whether setup was
reached, its outcome, and whether the cleanup block (`daytona_client.remove`)
was reached — `removeAttempted` is true exactly when control enters the
cleanup `try`, regardless of whether the removal itself then raises. -/
structure MainRun where
  setupRan : Bool
  setup : SetupResult
  removeAttempted : Bool
deriving Repr, DecidableEq

/-- sandbox.py `main`: aborts if no `.env` file exists; otherwise runs
`setup_babyagi_workspace` and, only when it returned the success record,
enters the cleanup block that removes the workspace. -/
def main_run (world : SandboxWorld) (envFileExists : Bool) (user_input : String) : MainRun :=
  if envFileExists then
    let s := setup_babyagi_workspace world user_input
    match s.result with
    | some _ => ⟨true, s, true⟩
    | none => ⟨true, s, false⟩
  else
    ⟨false, ⟨[], none, none⟩, false⟩

/-- Modelled from the spec (refinement reference, not from the source): the
workspace-creation phase as the spec describes it — an ordered list of
strategies ((1) explicit parameters with a generated unique id, (2) default
creation, (3) attach to a workspace id found in configuration), the phase
succeeding on the first strategy returning a non-null workspace handle. -/
def spec_workspace_creation_phase (world : SandboxWorld) : Option Workspace :=
  match world.createExplicit with
  | .ok (some ws) => some ws
  | _ =>
      match world.createDefault with
      | .ok (some ws) => some ws
      | _ =>
          match world.attachConfigured with
          | .ok (some ws) => some ws
          | _ => none

/-- The C2 counterexample world: the explicit-parameters strategy would fail,
default creation would succeed with handle 2, and every later phase would
cooperate. -/
def strategy2_world : SandboxWorld :=
  { daytonaConfig := .ok (), daytonaClient := .ok (),
    createExplicit := .error "Failed to create workspace with Strategy 1",
    createDefault := .ok (some ⟨2⟩),
    attachConfigured := .ok none,
    cloneRepo := fun _ => .ok "/tmp/babyagi/workspace",
    setupEnvOk := fun _ _ => true, installPipOk := fun _ => true,
    setupVenv := fun _ => some "/tmp/babyagi/workspace/venv",
    installDepsOk := fun _ => true,
    runOutput := fun _ _ => some "Task marked as completed." }

/-! ## Theorems -/

/-! ## Claims C3, C4, C5 -/

/-- C3 counterexample: a synthesis call whose source text empties the registry
containers and then raises reaches the failure return with the registry
already mutated — the descriptive failure string comes back, yet the tool
descriptors registered before the call are gone, refuting the claim that a
failing call leaves the registry unchanged. -/
theorem synthesis_failure_mutated_registry_counterexample :
    (create_or_update_tool registry_clearing_exec demo_globals "mytool" "a tool" []).2 =
      "Error creating/updating tool \x27mytool\x27: boom" ∧
    (create_or_update_tool registry_clearing_exec demo_globals "mytool" "a tool" []).1.reg.tools = [] ∧
    demo_globals.reg.tools ≠ [] :=
  ⟨rfl, rfl, by decide⟩

/-- C3 (amended): on a synthesis call whose source fails to compile or execute
or whose resulting scope lacks the requested symbol, `create_or_update_tool`
itself registers nothing — the globals it returns, registry included, are
exactly the globals as the executed source left them, so the registry is
unchanged whenever the executed source did not itself mutate it — and a
descriptive failure string is returned rather than an exception propagated
(the function is total). -/
theorem synthesis_failure_registers_nothing (execO : ModuleGlobals → ExecOutcome)
    (g : ModuleGlobals) (name : String) (description : String) (parameters : List String)
    (h : (∃ g2 e, execO g = .raised g2 e) ∨
      (∃ g2, execO g = .completed g2 ∧ dictGet g2.bindings name = none)) :
    (create_or_update_tool execO g name description parameters).1 = execGlobals (execO g) ∧
    ∃ tail,
      (create_or_update_tool execO g name description parameters).2 =
        "Error creating/updating tool \x27" ++ name ++ "\x27: " ++ tail := by
  rcases h with ⟨g2, e, he⟩ | ⟨g2, hc, hmiss⟩
  · refine ⟨?_, e, ?_⟩ <;> simp [create_or_update_tool, execGlobals, he]
  · refine ⟨?_, "\x27" ++ name ++ "\x27", ?_⟩ <;>
      simp [create_or_update_tool, execGlobals, hc, hmiss]

/-- C3 witness: a call whose code raises a `SyntaxError` (and, having never
run, mutated nothing) leaves the demo globals exactly as they were and
reports the descriptive failure string. -/
theorem synthesis_failure_registers_nothing_witness :
    (create_or_update_tool syntax_error_exec demo_globals "mytool" "a tool" []).1 = demo_globals ∧
    (create_or_update_tool syntax_error_exec demo_globals "mytool" "a tool" []).2 =
      "Error creating/updating tool \x27mytool\x27: invalid syntax (<string>, line 1)" :=
  ⟨(synthesis_failure_registers_nothing syntax_error_exec demo_globals "mytool" "a tool" []
      (Or.inl ⟨demo_globals, "invalid syntax (<string>, line 1)", rfl⟩)).1, rfl⟩

/-- C4: serializing with `max_length` 5000 keeps an encoding of at most 5000
characters unchanged; an encoding of 5001 or more characters becomes exactly
its first 5000 characters followed by the truncation note, which spells out
5000 and the true original length. -/
theorem serialize_truncates_at_5000 (s : String) :
    (s.length ≤ 5000 → serialize_tool_result 5000 s = s) ∧
    (s.length > 5000 →
      serialize_tool_result 5000 s = s.take 5000 ++ trunc_note 5000 s.length ∧
      (∃ pre post, trunc_note 5000 s.length = pre ++ "5000" ++ post) ∧
      (∃ pre post, trunc_note 5000 s.length = pre ++ toString s.length ++ post)) := by
  constructor
  · intro hle
    simp [serialize_tool_result, Nat.not_lt.mpr hle]
  · intro hgt
    refine ⟨by simp [serialize_tool_result, hgt], ?_, ?_⟩
    · refine ⟨"\n\n" ++ WARNING_COLOR ++ "(Note: Result was truncated to ",
        " characters out of " ++ toString s.length ++ " total characters.)" ++ ENDC_COLOR, ?_⟩
      have h5 : toString (5000 : Nat) = "5000" := by decide
      simp [trunc_note, h5, WARNING_COLOR, ENDC_COLOR, ← String.append_assoc]
    · exact ⟨"\n\n" ++ WARNING_COLOR ++ "(Note: Result was truncated to " ++
        toString (5000 : Nat) ++ " characters out of ",
        " total characters.)" ++ ENDC_COLOR, by
          simp [trunc_note, WARNING_COLOR, ENDC_COLOR, ← String.append_assoc]
          rw [String.append_assoc,
            show (" total characters.)" : String) ++ "\x1b[0m" = " total characters.)\x1b[0m" from rfl]⟩

/-- C4 witness: a 2-character encoding passes through unchanged, and the
5001-character encoding is cut to its first 5000 characters plus the note
naming 5000 and 5001. -/
theorem serialize_truncates_at_5000_witness :
    serialize_tool_result 5000 "ok" = "ok" ∧
    serialize_tool_result 5000 long_result =
      long_result.take 5000 ++ trunc_note 5000 5001 := by
  refine ⟨(serialize_truncates_at_5000 "ok").1 (by decide), ?_⟩
  have h : long_result.length = 5001 := by
    show (List.replicate 5001 'a').length = 5001
    exact List.length_replicate 5001 'a'
  have := ((serialize_truncates_at_5000 long_result).2 (by rw [h]; exact Nat.lt_succ_self 5000)).1
  rwa [h] at this

/-- C5: the dispatcher is total (it never lets an exception escape); a name
absent from `available_functions` yields the not-found text, which carries the
literal tool name; a registered implementation that raises yields exactly the
`Error executing` text built from the name and the exception message. -/
theorem call_tool_never_raises (available_functions : List (String × ToolImpl))
    (function_name : String) (args : Args) :
    (dictGet available_functions function_name = none →
      call_tool available_functions function_name args =
        "Tool \x27" ++ function_name ++ "\x27 not found." ∧
      ∃ pre post,
        call_tool available_functions function_name args = pre ++ function_name ++ post) ∧
    (∀ func msg, dictGet available_functions function_name = some func →
      func args = .error msg →
      call_tool available_functions function_name args =
        "Error executing \x27" ++ function_name ++ "\x27: " ++ msg) := by
  constructor
  · intro habsent
    refine ⟨by simp [call_tool, habsent], "Tool \x27", "\x27 not found.", ?_⟩
    simp [call_tool, habsent]
  · intro func msg hfound hraise
    simp [call_tool, hfound, hraise]

/-- C5 witness: on the demo registry, dispatching the absent name `web_search`
returns the not-found text, and dispatching a registered tool whose
implementation raises returns the `Error executing` text. -/
theorem call_tool_never_raises_witness :
    call_tool demo_registry.available_functions "web_search" [] =
      "Tool \x27web_search\x27 not found." ∧
    call_tool [("boom", fun _ => .error "division by zero")] "boom" [] =
      "Error executing \x27boom\x27: division by zero" :=
  ⟨(call_tool_never_raises demo_registry.available_functions "web_search" []).1 rfl |>.1,
   (call_tool_never_raises [("boom", fun _ => .error "division by zero")] "boom" []).2
     (fun _ => .error "division by zero") "division by zero" rfl rfl⟩

@[simp] lemma toolCallIds_nil : toolCallIds [] = [] := rfl

@[simp] lemma toolResultIds_nil : toolResultIds [] = [] := rfl

@[simp] lemma toolCallIds_cons (m : Message) (msgs : List Message) :
    toolCallIds (m :: msgs) = msgToolCallIds m ++ toolCallIds msgs := by
  simp [toolCallIds]

@[simp] lemma toolResultIds_cons (m : Message) (msgs : List Message) :
    toolResultIds (m :: msgs) = msgToolResultIds m ++ toolResultIds msgs := by
  simp [toolResultIds]

@[simp] lemma toolCallIds_append (a b : List Message) :
    toolCallIds (a ++ b) = toolCallIds a ++ toolCallIds b := by
  simp [toolCallIds]

@[simp] lemma toolResultIds_append (a b : List Message) :
    toolResultIds (a ++ b) = toolResultIds a ++ toolResultIds b := by
  simp [toolResultIds]

/-- A paired transcript stays paired after appending one assistant turn
together with tool-role messages answering exactly that turn's call ids. -/
lemma paired_append_turn (msgs : List Message) (rm : AssistantMessage) (extra : List Message)
    (hmsgs : paired msgs)
    (hres : toolResultIds extra = rm.tool_calls.map (fun tc => tc.id))
    (hnocalls : toolCallIds extra = []) :
    paired (msgs ++ Message.assistant rm :: extra) := by
  intro i hi
  simp only [toolCallIds_append, toolCallIds_cons, hnocalls, List.mem_append,
    List.append_nil, msgToolCallIds] at hi
  simp only [toolResultIds_append, toolResultIds_cons, hres, List.mem_append,
    msgToolResultIds, List.nil_append]
  rcases hi with hi | hi
  · exact Or.inl (hmsgs i hi)
  · exact Or.inr hi

/-- When every arguments string parses, processing a turn's tool calls raises
nothing and appends exactly one tool-role message per call, echoing its id. -/
lemma process_tool_calls_ok {σ : Type} (jsonLoads : String → Except String Args)
    (callT : σ → String → Args → σ × String)
    (hjson : ∀ s, ∃ a, jsonLoads s = .ok a) :
    ∀ (tcs : List ToolCall) (st : σ) (msgs : List Message),
      ∃ st2 extra,
        process_tool_calls jsonLoads callT st msgs tcs = (st2, msgs ++ extra, none) ∧
        toolResultIds extra = tcs.map (fun tc => tc.id) ∧
        toolCallIds extra = [] := by
  intro tcs
  induction tcs with
  | nil =>
      intro st msgs
      exact ⟨st, [], by simp [process_tool_calls], rfl, rfl⟩
  | cons tc rest ih =>
      intro st msgs
      obtain ⟨a, ha⟩ := hjson tc.arguments
      obtain ⟨st2, extra, heq, hres, hcalls⟩ :=
        ih (callT st tc.name a).1
          (msgs ++ [Message.tool tc.name tc.id
            (serialize_tool_result MAX_TOOL_OUTPUT_LENGTH (callT st tc.name a).2)])
      refine ⟨st2,
        Message.tool tc.name tc.id
          (serialize_tool_result MAX_TOOL_OUTPUT_LENGTH (callT st tc.name a).2) :: extra,
        ?_, ?_, ?_⟩
      · simp only [process_tool_calls, ha, heq]
        simp
      · simp [msgToolResultIds, hres]
      · simp [msgToolCallIds, hcalls]

/-- Inductive invariant of the loop: if the current transcript and every
recorded request are paired and every arguments string parses, then every
request the run ever issues is paired. -/
lemma run_main_loop_aux_paired {σ : Type}
    (completionO : List Message → Except String AssistantMessage)
    (jsonLoads : String → Except String Args)
    (callT : σ → String → Args → σ × String)
    (hjson : ∀ s, ∃ a, jsonLoads s = .ok a) :
    ∀ (fuel : Nat) (st : σ) (msgs : List Message) (iters : Nat) (reqs : List (List Message)),
      paired msgs → (∀ r ∈ reqs, paired r) →
      ∀ r ∈ (run_main_loop_aux completionO jsonLoads callT fuel st msgs iters reqs).requests,
        paired r := by
  intro fuel
  induction fuel with
  | zero =>
      intro st msgs iters reqs hmsgs hreqs r hr
      simp only [run_main_loop_aux, List.mem_reverse] at hr
      exact hreqs r hr
  | succ n ih =>
      intro st msgs iters reqs hmsgs hreqs r hr
      have hreqs' : ∀ r ∈ msgs :: reqs, paired r := by
        intro r hr'
        rcases List.mem_cons.mp hr' with h | h
        · exact h ▸ hmsgs
        · exact hreqs r h
      cases hc : completionO msgs with
      | error e =>
          simp only [run_main_loop_aux, hc] at hr
          exact ih st msgs (iters + 1) (msgs :: reqs) hmsgs hreqs' r hr
      | ok rm =>
          cases hemp : rm.tool_calls.isEmpty with
          | true =>
              have hcalls : rm.tool_calls = [] := by
                simpa using hemp
              have hpaired1 := paired_append_turn msgs rm [] hmsgs (by simp [hcalls]) rfl
              simp only [run_main_loop_aux, hc, hemp, if_true] at hr
              refine ih _ _ _ _ ?_ hreqs' r hr
              simpa using hpaired1
          | false =>
              obtain ⟨st2, extra, heq, hres, hcallids⟩ :=
                process_tool_calls_ok jsonLoads callT hjson rm.tool_calls st
                  (msgs ++ [Message.assistant rm])
              have hpaired2 := paired_append_turn msgs rm extra hmsgs hres hcallids
              cases hany : rm.tool_calls.any (fun tc => tc.name == "task_completed") with
              | true =>
                  simp [run_main_loop_aux, hc, hemp, heq, hany] at hr
                  rcases hr with hr | hr
                  · exact hreqs r hr
                  · exact hr ▸ hmsgs
              | false =>
                  simp [run_main_loop_aux, hc, hemp, heq, hany] at hr
                  refine ih _ _ _ _ ?_ hreqs' r hr
                  simpa using hpaired2

/-- The initial transcript issues no tool calls, hence is paired. -/
lemma initial_messages_paired (environ : Environ) (user_input : String) :
    paired (initial_messages environ user_input) := by
  intro i hi
  simp [initial_messages, toolCallIds, msgToolCallIds] at hi

/-! ## Claims C6, C7, C8, C9 -/

/-- When every completion request raises, each pass of the loop only records
the request and advances: the run makes exactly `fuel` more passes. -/
lemma run_main_loop_aux_all_errors {σ : Type}
    (completionO : List Message → Except String AssistantMessage)
    (jsonLoads : String → Except String Args)
    (callT : σ → String → Args → σ × String)
    (h : ∀ msgs, ∃ e, completionO msgs = .error e) :
    ∀ (fuel : Nat) (st : σ) (msgs : List Message) (iters : Nat) (reqs : List (List Message)),
      run_main_loop_aux completionO jsonLoads callT fuel st msgs iters reqs =
        ⟨(List.replicate fuel msgs ++ reqs).reverse, iters + fuel, false⟩ := by
  intro fuel
  induction fuel with
  | zero =>
      intro st msgs iters reqs
      simp [run_main_loop_aux]
  | succ n ih =>
      intro st msgs iters reqs
      obtain ⟨e, he⟩ := h msgs
      simp only [run_main_loop_aux, he]
      rw [ih]
      congr 1
      · rw [List.replicate_succ', List.append_assoc, List.singleton_append]
      · omega

/-- C7: a run in which every completion request raises treats each exception as
a no-op, still advances its index each pass, and stops after exactly the
50-iteration bound, never through the sentinel. -/
theorem loop_survives_all_completion_failures {σ : Type} (environ : Environ)
    (completionO : List Message → Except String AssistantMessage)
    (jsonLoads : String → Except String Args)
    (callT : σ → String → Args → σ × String) (st0 : σ) (user_input : String)
    (h : ∀ msgs, ∃ e, completionO msgs = .error e) :
    (run_main_loop environ completionO jsonLoads callT st0 user_input).iterations = 50 ∧
    (run_main_loop environ completionO jsonLoads callT st0 user_input).requests.length = 50 ∧
    (run_main_loop environ completionO jsonLoads callT st0 user_input).completedViaSentinel = false := by
  rw [run_main_loop, run_main_loop_aux_all_errors completionO jsonLoads callT h]
  refine ⟨rfl, ?_, rfl⟩
  simp [max_iterations]

/-- C7 witness: with the always-raising completion endpoint the loop runs its
50 passes, records 50 requests, and does not end through the sentinel. -/
theorem loop_survives_all_completion_failures_witness :
    (run_main_loop [] failing_completion strict_json unit_call_tool () "demo task").iterations = 50 ∧
    (run_main_loop [] failing_completion strict_json unit_call_tool () "demo task").requests.length = 50 ∧
    (run_main_loop [] failing_completion strict_json unit_call_tool () "demo task").completedViaSentinel = false :=
  loop_survives_all_completion_failures [] failing_completion strict_json unit_call_tool ()
    "demo task" (fun _ => ⟨"APIConnectionError: Connection error.", rfl⟩)

/-- C6 (amended): if the first response carries a `task_completed` tool call
and every arguments string of the run parses as JSON, the loop ends through
the sentinel after that single pass, with the Python index still 0. -/
theorem sentinel_first_response_single_iteration {σ : Type} (environ : Environ)
    (completionO : List Message → Except String AssistantMessage)
    (jsonLoads : String → Except String Args)
    (callT : σ → String → Args → σ × String) (st0 : σ) (user_input : String)
    (rm : AssistantMessage)
    (hresp : completionO (initial_messages environ user_input) = .ok rm)
    (hsent : "task_completed" ∈ rm.tool_calls.map (fun tc => tc.name))
    (hjson : ∀ s, ∃ a, jsonLoads s = .ok a) :
    (run_main_loop environ completionO jsonLoads callT st0 user_input).iterations = 1 ∧
    (run_main_loop environ completionO jsonLoads callT st0 user_input).completedViaSentinel = true := by
  obtain ⟨st2, extra, heq, -, -⟩ :=
    process_tool_calls_ok jsonLoads callT hjson rm.tool_calls st0
      (initial_messages environ user_input ++ [Message.assistant rm])
  have hne : rm.tool_calls.isEmpty = false := by
    rcases List.mem_map.mp hsent with ⟨tc, htc, -⟩
    cases hcalls : rm.tool_calls with
    | nil => rw [hcalls] at htc; cases htc
    | cons a l => simp
  have hany : rm.tool_calls.any (fun tc => tc.name == "task_completed") = true := by
    rcases List.mem_map.mp hsent with ⟨tc, htc, hname⟩
    exact List.any_eq_true.mpr ⟨tc, htc, by simp [hname]⟩
  rw [run_main_loop, show max_iterations = 49 + 1 from rfl]
  simp [run_main_loop_aux, hresp, hne, heq, hany]

/-- C6 counterexample: the first response carries a `task_completed` tool call,
yet because its arguments text fails `json.loads` the exception skips the
sentinel check, the iteration is burned, and the loop runs all 50 passes
instead of one. -/
theorem sentinel_with_malformed_args_not_single_iteration :
    "task_completed" ∈ sentinel_bad_args_response.tool_calls.map (fun tc => tc.name) ∧
    (run_main_loop [] sentinel_bad_args_completion strict_json unit_call_tool () "demo task").iterations = 50 ∧
    (run_main_loop [] sentinel_bad_args_completion strict_json unit_call_tool () "demo task").completedViaSentinel = false := by
  refine ⟨by decide, ?_, ?_⟩ <;> decide

/-- C6 witness: with parseable arguments the sentinel on the first response
ends the run after one pass. -/
theorem sentinel_first_response_single_iteration_witness :
    (run_main_loop [] sentinel_ok_completion lenient_json unit_call_tool () "demo task").iterations = 1 ∧
    (run_main_loop [] sentinel_ok_completion lenient_json unit_call_tool () "demo task").completedViaSentinel = true :=
  sentinel_first_response_single_iteration [] sentinel_ok_completion lenient_json unit_call_tool
    () "demo task" _ rfl (by decide) (fun _ => ⟨[], rfl⟩)

/-- C8 (amended): whenever every arguments string parses as JSON, every
completion request of the run is issued on a paired transcript: each tool-call
id already has its answering tool-role message. -/
theorem loop_requests_all_paired {σ : Type} (environ : Environ)
    (completionO : List Message → Except String AssistantMessage)
    (jsonLoads : String → Except String Args)
    (callT : σ → String → Args → σ × String) (st0 : σ) (user_input : String)
    (hjson : ∀ s, ∃ a, jsonLoads s = .ok a) :
    allPaired (run_main_loop environ completionO jsonLoads callT st0 user_input) := by
  intro r hr
  refine run_main_loop_aux_paired completionO jsonLoads callT hjson max_iterations st0
    (initial_messages environ user_input) 0 [] (initial_messages_paired environ user_input)
    ?_ r hr
  intro r hr'
  exact absurd hr' (List.not_mem_nil r)

/-- C8 counterexample: after the first turn's arguments fail `json.loads`, the
assistant message with tool call `call_9` is already in the transcript but no
tool-role result for it ever is, and the next completion request is issued on
that unpaired transcript. -/
theorem unpaired_request_counterexample :
    ¬ allPaired (run_main_loop [] unpaired_completion strict_json unit_call_tool () "demo task") := by
  decide

/-- C8 witness: with parseable arguments every request of this two-turn run is
issued on a paired transcript. -/
theorem loop_requests_all_paired_witness :
    allPaired (run_main_loop [] paired_completion lenient_json unit_call_tool () "demo task") :=
  loop_requests_all_paired [] paired_completion lenient_json unit_call_tool () "demo task"
    (fun _ => ⟨[], rfl⟩)

/-- C9: the system message depends on the environment only through the
variable names: two environments listing the same names, whatever their
values, produce identical initial transcripts — credential values never reach
the transcript. -/
theorem system_message_independent_of_values (env1 env2 : Environ) (user_input : String)
    (h : env1.map Prod.fst = env2.map Prod.fst) :
    initial_messages env1 user_input = initial_messages env2 user_input := by
  have hk : available_api_keys env1 = available_api_keys env2 := by
    unfold available_api_keys
    rw [h]
  simp [initial_messages, system_message_content, api_keys_info, hk]

/-- C9 witness: the two environments differ in every value yet produce the
same initial transcript. -/
theorem system_message_independent_of_values_witness :
    initial_messages env_alpha "solve the task" = initial_messages env_beta "solve the task" :=
  system_message_independent_of_values env_alpha env_beta "solve the task" rfl

/-! ## Claims C1, C2, C10 -/

/-- C1: sandbox.py never attempts teardown. The cleanup block of `main` is
reachable only after a fully successful setup, and `setup_babyagi_workspace`
always raises `NameError` on the unbound name `uuid` before any workspace is
created — so on every run, over every behaviour of the Daytona service, no
workspace is created and `remove` is never attempted, contradicting the
spec's cleanup invariant. -/
theorem teardown_never_attempted (world : SandboxWorld) (envFileExists : Bool)
    (user_input : String) :
    (main_run world envFileExists user_input).removeAttempted = false ∧
    (setup_babyagi_workspace world user_input).created = none := by
  obtain ⟨c1, c2, ce, cd, ca, cl, se, ip, sv, idp, ro⟩ := world
  cases envFileExists <;> cases c1 <;> cases c2 <;> exact ⟨rfl, rfl⟩

/-- C1 witness: a concrete run (task text, `.env` present, Daytona reachable
and willing to create) still never reaches the cleanup block. -/
theorem teardown_never_attempted_witness :
    (main_run
      { daytonaConfig := .ok (), daytonaClient := .ok (),
        createExplicit := .ok (some ⟨1⟩), createDefault := .ok (some ⟨2⟩),
        attachConfigured := .ok none,
        cloneRepo := fun _ => .ok "/tmp/babyagi/workspace",
        setupEnvOk := fun _ _ => true, installPipOk := fun _ => true,
        setupVenv := fun _ => some "/tmp/babyagi/workspace/venv",
        installDepsOk := fun _ => true,
        runOutput := fun _ _ => some "Task marked as completed." }
      true "write a poem").removeAttempted = false := rfl

/-- C10: `setup_babyagi_workspace` can never produce the success record: the
name `uuid` is not bound in sandbox.py's module scope, so the creation step
raises before any workspace exists and the handler returns `None` — for every
behaviour of the external world and every input. -/
theorem setup_always_returns_none :
    nameDefined "uuid" = false ∧
    ∀ (world : SandboxWorld) (user_input : String),
      (setup_babyagi_workspace world user_input).result = none ∧
      (setup_babyagi_workspace world user_input).created = none := by
  refine ⟨by decide, ?_⟩
  intro world user_input
  obtain ⟨c1, c2, ce, cd, ca, cl, se, ip, sv, idp, ro⟩ := world
  cases c1 <;> cases c2 <;> exact ⟨rfl, rfl⟩

/-- C10 witness: the fully cooperative world of the C1 witness still gets
`None` back from setup. -/
theorem setup_always_returns_none_witness :
    (setup_babyagi_workspace
      { daytonaConfig := .ok (), daytonaClient := .ok (),
        createExplicit := .ok (some ⟨1⟩), createDefault := .ok (some ⟨2⟩),
        attachConfigured := .ok none,
        cloneRepo := fun _ => .ok "/tmp/babyagi/workspace",
        setupEnvOk := fun _ _ => true, installPipOk := fun _ => true,
        setupVenv := fun _ => some "/tmp/babyagi/workspace/venv",
        installDepsOk := fun _ => true,
        runOutput := fun _ _ => some "Task marked as completed." }
      "write a poem").result = none := rfl

/-- C2 counterexample: in a world where strategy 1 fails and strategy 2 (the
spec's default creation) would succeed with handle 2, the spec's phase
proceeds with that handle, but sandbox.py creates no workspace at all and
provisioning fails — the claimed fallback does not happen. -/
theorem no_fallback_strategy_counterexample :
    spec_workspace_creation_phase strategy2_world = some ⟨2⟩ ∧
    (setup_babyagi_workspace strategy2_world "build a tool").created = none ∧
    (setup_babyagi_workspace strategy2_world "build a tool").result = none :=
  ⟨rfl, rfl, rfl⟩

/-- C2 (amended): the workspace-creation code of sandbox.py consists of the
single explicit-parameters strategy; strategies 2 and 3 have no call sites,
so the phase never consults them (its outcome is unchanged under any
reinterpretation of their oracles), and the single strategy always fails
because its id expression references the unbound name `uuid`. -/
theorem workspace_creation_single_strategy (world : SandboxWorld) (user_input : String) :
    ((setup_babyagi_workspace world user_input).strategiesAttempted = [] ∨
      (setup_babyagi_workspace world user_input).strategiesAttempted = [1]) ∧
    (setup_babyagi_workspace world user_input).created = none ∧
    (∀ d a, setup_babyagi_workspace
        { world with createDefault := d, attachConfigured := a } user_input =
      setup_babyagi_workspace world user_input) := by
  obtain ⟨c1, c2, ce, cd, ca, cl, se, ip, sv, idp, ro⟩ := world
  cases c1 <;> cases c2
  · exact ⟨Or.inl rfl, rfl, fun d a => rfl⟩
  · exact ⟨Or.inl rfl, rfl, fun d a => rfl⟩
  · exact ⟨Or.inl rfl, rfl, fun d a => rfl⟩
  · exact ⟨Or.inr rfl, rfl, fun d a => rfl⟩

/-- C2 amended-claim witness: on the counterexample world itself, the phase
attempted only strategy 1 and created nothing. -/
theorem workspace_creation_single_strategy_witness :
    (setup_babyagi_workspace strategy2_world "build a tool").strategiesAttempted = [1] ∧
    (setup_babyagi_workspace strategy2_world "build a tool").created = none :=
  ⟨rfl, rfl⟩
